import Mathlib

/-!
Verification development for the kiss-ui binding layer (src/lib.rs, src/widget.rs).

The binding wraps the native IUP C GUI library.  We embed the Rust code
shallowly:

* raw IUP handles (`*mut Ihandle`) become `Nat`, with `0` the null pointer;
* the thread-local globals `KISS_RUNNING` and `WIDGET_STORE` become fields of
  an explicit `KissState` record that every operation threads through;
* each unsafe call into the native library is recorded as an `Event` appended
  to a call trace inside the state, so that theorems can speak about whether
  and when the native library was reached;
* a Rust panic (a failed `assert!` or `unwrap`) becomes `Except.error` with
  the panic message; code that cannot panic keeps a plain (total) type.

Rust `HashMap<String, BaseWidget>` is modelled as an association list in
which an insert removes any previous binding of the key, mirroring
`HashMap::insert` (which returns the previous value and replaces it).
-/

/-- Raw IUP widget handle (`*mut iup_sys::Ihandle`); `0` is the null pointer. -/
abbrev IUPPtr := Nat

/-- The type-erased widget handle `BaseWidget` (declared in `base.rs`): a
wrapper holding one raw IUP handle. -/
structure BaseWidget where
  ptr : IUPPtr
deriving DecidableEq, Repr

/-- A typed widget wrapper as generated by the `impl_widget!` macro
(widget.rs 267-300): a tuple struct over one raw IUP handle.  All generated
wrappers have this shape, so one Lean structure stands for any of them. -/
structure Wrapped where
  ptr : IUPPtr
deriving DecidableEq, Repr

/-- The `Dialog` widget wrapper (declared in `dialog.rs`). -/
structure Dialog where
  ptr : IUPPtr
deriving DecidableEq, Repr

/-- One observable step of the binding layer: a call into the native IUP
library, a mutation of the lifecycle flag `KISS_RUNNING`, the eviction of the
widget store, or an opaque step of client code. -/
inductive Event where
  | iupOpen
  | iupSetGlobal
  | iupShow (p : IUPPtr)
  | iupHide (p : IUPPtr)
  | iupSetStrAttribute (p : IUPPtr) (name : String) (val : Option (List Nat))
  | iupMainLoop
  | iupClose
  | setRunning (b : Bool)
  | clearStore
  | client (tag : Nat)
deriving DecidableEq, Repr

/-- The process state visible to the binding layer: the thread-local lifecycle
flag `KISS_RUNNING`, the thread-local `WIDGET_STORE` map (lib.rs 118-120), and
the trace of events performed so far. -/
structure KissState where
  kiss_running : Bool
  widget_store : List (String × BaseWidget)
  calls : List Event
deriving DecidableEq, Repr

/-- `kiss_running()` (lib.rs 114-116): reads the thread-local flag. -/
def kiss_running (s : KissState) : Bool :=
  s.kiss_running

/-- The `assert_kiss_running!` macro (lib.rs 32-39): asserts that
`kiss_running()` holds, panicking otherwise. -/
def assert_kiss_running (s : KissState) : Except String Unit :=
  if kiss_running s then Except.ok ()
  else Except.error "No KISS-UI widget methods may be called before show_gui is invoked or after it returns!"

/-- `<T as IUPWidget>::from_ptr` as generated by `impl_widget!`
(widget.rs 271-281): asserts the pointer is non-null, then wraps it.
`Except.error` is the panic of the failed assertion. -/
def Wrapped.from_ptr (p : IUPPtr) : Except String Wrapped :=
  if p = 0 then Except.error "Failed to construct widget; pointer returned from IUP was null!"
  else Except.ok ⟨p⟩

/-- `IUPWidget::from_ptr_opt` (widget.rs 153-159): `Some(from_ptr ptr)` for a
non-null pointer, `None` for null.  The outer `Except` is the panic channel of
the inner `from_ptr` call. -/
def Wrapped.from_ptr_opt (p : IUPPtr) : Except String (Option Wrapped) :=
  if p ≠ 0 then (Wrapped.from_ptr p).map some
  else Except.ok none

/-- `BaseWidget::from_ptr`.  Modelled from the spec: `BaseWidget` is declared
in `base.rs`, which is not included in `src/`; per the spec, constructing any
widget wrapper from a null handle is a fatal assertion ("a foreign constructor
returning a null handle — signaled as a fatal assertion"), exactly the shape
`impl_widget!` generates. -/
def BaseWidget.from_ptr (p : IUPPtr) : Except String BaseWidget :=
  if p = 0 then Except.error "Failed to construct BaseWidget; pointer returned from IUP was null!"
  else Except.ok ⟨p⟩

/-- `BaseWidget::from_ptr_opt`: the default body of `IUPWidget::from_ptr_opt`
(widget.rs 153-159) instantiated at `BaseWidget`. -/
def BaseWidget.from_ptr_opt (p : IUPPtr) : Except String (Option BaseWidget) :=
  if p ≠ 0 then (BaseWidget.from_ptr p).map some
  else Except.ok none

/-- `Dialog::downcast`.  Modelled from the spec: `Downcast` is declared in
`base.rs`, not included in `src/`; it re-wraps the same underlying handle at
the concrete widget type. -/
def Dialog.downcast (b : BaseWidget) : Dialog :=
  ⟨b.ptr⟩

namespace Widget

/-- `Widget::show` (widget.rs 20-23): calls `IupShow` on the widget's handle
unconditionally and returns `self`.  The body contains no assertion, so the
function is total. -/
def «show» (w : Wrapped) (s : KissState) : Wrapped × KissState :=
  (w, { s with calls := s.calls ++ [Event.iupShow w.ptr] })

/-- `Widget::hide` (widget.rs 28-31): calls `IupHide` on the widget's handle
unconditionally and returns `self`. -/
def hide (w : Wrapped) (s : KissState) : Wrapped × KissState :=
  (w, { s with calls := s.calls ++ [Event.iupHide w.ptr] })

/-- `Widget::get_sibling` (widget.rs 88-93): applies `from_ptr_opt` to the
pointer returned by `IupGetBrother`.  The native call is an oracle parameter
`iupGetBrother`. -/
def get_sibling (iupGetBrother : IUPPtr → IUPPtr) (w : Wrapped) :
    Except String (Option BaseWidget) :=
  BaseWidget.from_ptr_opt (iupGetBrother w.ptr)

/-- `Widget::get_parent` (widget.rs 98-103): applies `from_ptr_opt` to the
pointer returned by `IupGetParent`. -/
def get_parent (iupGetParent : IUPPtr → IUPPtr) (w : Wrapped) :
    Except String (Option BaseWidget) :=
  BaseWidget.from_ptr_opt (iupGetParent w.ptr)

/-- `Widget::get_dialog` (widget.rs 108-114): applies `from_ptr_opt` to the
pointer returned by `IupGetDialog` and downcasts the result to `Dialog`. -/
def get_dialog (iupGetDialog : IUPPtr → IUPPtr) (w : Wrapped) :
    Except String (Option Dialog) :=
  (BaseWidget.from_ptr_opt (iupGetDialog w.ptr)).map (fun o => o.map Dialog.downcast)

/-- `Widget::get_size_pixels` (widget.rs 119-122): reads the two `i32`
components of the `RASTERSIZE` attribute (the native `IupGetIntInt` result is
the oracle argument) and converts each to `u32` with a plain `as` cast. -/
def get_size_pixels (rastersize : Int × Int) : Nat × Nat :=
  ((rastersize.1 % (2 ^ 32 : Int)).toNat, (rastersize.2 % (2 ^ 32 : Int)).toNat)

/-- `Widget::to_base` (widget.rs 134-136): `BaseWidget::from_ptr(self.ptr())`. -/
def to_base (w : Wrapped) : Except String BaseWidget :=
  BaseWidget.from_ptr w.ptr

/-- `Widget::store` (widget.rs 128-132): inserts `self.to_base()` into the
thread-local `WIDGET_STORE` under `name`, returning the previous binding
exactly as `HashMap::insert` does. -/
def store (w : Wrapped) (name : String) (s : KissState) :
    Except String (Option BaseWidget × KissState) :=
  match to_base w with
  | Except.error e => Except.error e
  | Except.ok b =>
      Except.ok (s.widget_store.lookup name,
        { s with widget_store :=
            (name, b) :: s.widget_store.filter (fun p => p.1 ≠ name) })

end Widget

namespace IUPWidget

/-- `IUPWidget::get_attr_handle` (widget.rs 241-246): applies `from_ptr_opt`
to the pointer returned by `IupGetAttributeHandle`. -/
def get_attr_handle (iupGetAttributeHandle : IUPPtr → String → IUPPtr)
    (w : Wrapped) (name : String) : Except String (Option BaseWidget) :=
  BaseWidget.from_ptr_opt (iupGetAttributeHandle w.ptr name)

/-- `CString::new` over the byte content of a Rust `String`: fails exactly
when the bytes contain a NUL byte. -/
def cstring_new (bytes : List Nat) : Option (List Nat) :=
  if bytes.contains 0 then none else some bytes

/-- `IUPWidget::set_str_attribute` (widget.rs 169-172): converts the value
with `CString::new(..).unwrap()` — a panic when the text holds a NUL byte —
and otherwise passes the converted text to `IupSetStrAttribute`. -/
def set_str_attribute (w : Wrapped) (name : String) (val : List Nat)
    (s : KissState) : Except String KissState :=
  match cstring_new val with
  | none => Except.error "called Result::unwrap on an Err value: NulError"
  | some c_val =>
      Except.ok { s with calls :=
        s.calls ++ [Event.iupSetStrAttribute w.ptr name (some c_val)] }

/-- `IUPWidget::set_opt_str_attribute` (widget.rs 174-184): converts a present
value with `CString::new(..).unwrap()` (a panic on a NUL byte), passes a null
pointer for `None`. -/
def set_opt_str_attribute (w : Wrapped) (name : String) (val : Option (List Nat))
    (s : KissState) : Except String KissState :=
  match val with
  | none =>
      Except.ok { s with calls :=
        s.calls ++ [Event.iupSetStrAttribute w.ptr name none] }
  | some v =>
      match cstring_new v with
      | none => Except.error "called Result::unwrap on an Err value: NulError"
      | some c_val =>
          Except.ok { s with calls :=
            s.calls ++ [Event.iupSetStrAttribute w.ptr name (some c_val)] }

end IUPWidget

/-- `BaseWidget::load`.  Modelled from the spec: `base.rs` is not included in
`src/`; per the spec and the doc comment on `Widget::store`, a stored widget
"may later be retrieved from any valid KISS-UI context by calling
`BaseWidget::load(name)`" — a lookup in the named-widget store, guarded (like
every static widget method) by the lifecycle assertion. -/
def BaseWidget.load (name : String) (s : KissState) :
    Except String (Option BaseWidget) :=
  match assert_kiss_running s with
  | Except.error e => Except.error e
  | Except.ok _ => Except.ok (s.widget_store.lookup name)

/-- `show_gui` (lib.rs 88-112) as a state transformer.  `openFails` models the
result of the native `IupOpen` call, asserted to be `0` by the code;
`init_fn` is the client closure (it returns the main `Dialog` and may change
the state arbitrarily); `mainLoop` stands for the client callback code run by
the blocking `IupMainLoop` call.  In the trace, client events appear where the
client code ran, and `Event.iupMainLoop` marks the return of the blocking
native call.  Steps, in source order: assert `IupOpen` succeeded; set UTF-8
mode; set `KISS_RUNNING` to `true`; run the closure; `IupShow` the returned
dialog; run the event loop; `IupClose`; set `KISS_RUNNING` to `false`; replace
`WIDGET_STORE` with an empty map. -/
def show_gui (openFails : Bool) (init_fn : KissState → Dialog × KissState)
    (mainLoop : KissState → KissState) (s0 : KissState) :
    Except String KissState :=
  if openFails then Except.error "assertion failed: IupOpen returned nonzero"
  else
    let s1 : KissState := { s0 with calls := s0.calls ++ [Event.iupOpen, Event.iupSetGlobal] }
    let s2 : KissState := { s1 with kiss_running := true,
                                    calls := s1.calls ++ [Event.setRunning true] }
    let ds3 := init_fn s2
    let s4 : KissState := { ds3.2 with calls := ds3.2.calls ++ [Event.iupShow ds3.1.ptr] }
    let s5 := mainLoop s4
    let s6 : KissState := { s5 with calls := s5.calls ++ [Event.iupMainLoop, Event.iupClose] }
    let s7 : KissState := { s6 with kiss_running := false,
                                    calls := s6.calls ++ [Event.setRunning false] }
    Except.ok { s7 with widget_store := [],
                        calls := s7.calls ++ [Event.clearStore] }

/-- A list of events that never touches the lifecycle flag: what any code
outside `show_gui` can produce, since `KISS_RUNNING` is private to lib.rs. -/
def noSetRunning (l : List Event) : Prop :=
  ∀ b : Bool, Event.setRunning b ∉ l

instance (l : List Event) : Decidable (noSetRunning l) :=
  decidable_of_iff
    (Event.setRunning false ∉ l ∧ Event.setRunning true ∉ l)
    (by
      constructor
      · rintro ⟨h0, h1⟩ b
        cases b
        · exact h0
        · exact h1
      · intro h
        exact ⟨h false, h true⟩)

/-- One step of the lifecycle flag under an event: a `setRunning` event
overwrites it, every other event leaves it unchanged. -/
def flagStep (b : Bool) (e : Event) : Bool :=
  match e with
  | Event.setRunning b2 => b2
  | _ => b

/-- The value of the lifecycle flag after replaying a trace from flag state
`b`. -/
def runFlagFrom (b : Bool) (l : List Event) : Bool :=
  l.foldl flagStep b

/-- The value of the lifecycle flag after replaying a trace from the initial
state (`KISS_RUNNING` is initialised to `false`, lib.rs 118). -/
def runFlag (l : List Event) : Bool :=
  runFlagFrom false l

/-- A client state transformer is well-behaved when it only appends events to
the trace and those events never touch the private lifecycle flag. -/
def ClientAppends (f : KissState → KissState) : Prop :=
  ∀ s : KissState, ∃ ev : List Event,
    (f s).calls = s.calls ++ ev ∧ noSetRunning ev

/-- Well-behavedness of the init closure, which also returns a `Dialog`. -/
def InitAppends (f : KissState → Dialog × KissState) : Prop :=
  ∀ s : KissState, ∃ ev : List Event,
    (f s).2.calls = s.calls ++ ev ∧ noSetRunning ev

/-! ## Helper lemmas -/

lemma base_from_ptr_opt_zero : BaseWidget.from_ptr_opt 0 = Except.ok none := by
  unfold BaseWidget.from_ptr_opt
  simp

lemma base_from_ptr_opt_null (p : IUPPtr) :
    (BaseWidget.from_ptr_opt p = Except.ok none ↔ p = 0) ∧
    (p ≠ 0 → BaseWidget.from_ptr_opt p = Except.ok (some ⟨p⟩)) := by
  unfold BaseWidget.from_ptr_opt BaseWidget.from_ptr
  by_cases h : p = 0 <;> simp [h, Except.map]

/-! ## Claim theorems -/

/-- C6: constructing a typed widget wrapper (via the `from_ptr` generated by
`impl_widget!`) from a null pointer panics with a fatal assertion, and a
wrapper holding a null handle is never produced. -/
theorem impl_widget_from_ptr_null_is_fatal (p : IUPPtr) :
    (p = 0 → Wrapped.from_ptr p =
        Except.error "Failed to construct widget; pointer returned from IUP was null!") ∧
    (p ≠ 0 → Wrapped.from_ptr p = Except.ok ⟨p⟩) ∧
    (∀ w : Wrapped, Wrapped.from_ptr p = Except.ok w → w.ptr ≠ 0) := by
  unfold Wrapped.from_ptr
  by_cases h : p = 0 <;> simp [h]

/-- Witness for C6 at the concrete pointers 0 and 5. -/
theorem impl_widget_from_ptr_null_is_fatal_witness :
    Wrapped.from_ptr 0 =
      Except.error "Failed to construct widget; pointer returned from IUP was null!" ∧
    Wrapped.from_ptr 5 = Except.ok ⟨5⟩ :=
  ⟨(impl_widget_from_ptr_null_is_fatal 0).1 rfl,
   (impl_widget_from_ptr_null_is_fatal 5).2.1 (by decide)⟩

/-- C9: `from_ptr_opt` returns `None` exactly on the null pointer and
otherwise `Some` of the `from_ptr` wrapper; each Option-returning navigation
method (`get_sibling`, `get_parent`, `get_dialog`, `get_attr_handle`) returns
`None` exactly when the corresponding native call yields a null pointer. -/
theorem from_ptr_opt_none_iff_null (p : IUPPtr)
    (bro par dlg : IUPPtr → IUPPtr) (hnd : IUPPtr → String → IUPPtr)
    (w : Wrapped) (n : String) :
    (Wrapped.from_ptr_opt p = Except.ok none ↔ p = 0) ∧
    (p ≠ 0 → Wrapped.from_ptr_opt p = (Wrapped.from_ptr p).map some ∧
      Wrapped.from_ptr_opt p = Except.ok (some ⟨p⟩)) ∧
    (Widget.get_sibling bro w = Except.ok none ↔ bro w.ptr = 0) ∧
    (Widget.get_parent par w = Except.ok none ↔ par w.ptr = 0) ∧
    (Widget.get_dialog dlg w = Except.ok none ↔ dlg w.ptr = 0) ∧
    (IUPWidget.get_attr_handle hnd w n = Except.ok none ↔ hnd w.ptr n = 0) := by
  refine ⟨?_, ?_, ?_, ?_, ?_, ?_⟩
  · unfold Wrapped.from_ptr_opt Wrapped.from_ptr
    by_cases h : p = 0 <;> simp [h, Except.map]
  · intro h
    unfold Wrapped.from_ptr_opt Wrapped.from_ptr
    simp [h, Except.map]
  · unfold Widget.get_sibling
    by_cases h : bro w.ptr = 0
    · simp [h, base_from_ptr_opt_zero]
    · simp [h, (base_from_ptr_opt_null (bro w.ptr)).2 h]
  · unfold Widget.get_parent
    by_cases h : par w.ptr = 0
    · simp [h, base_from_ptr_opt_zero]
    · simp [h, (base_from_ptr_opt_null (par w.ptr)).2 h]
  · unfold Widget.get_dialog
    by_cases h : dlg w.ptr = 0
    · simp [h, base_from_ptr_opt_zero, Except.map]
    · simp [h, (base_from_ptr_opt_null (dlg w.ptr)).2 h, Except.map]
  · unfold IUPWidget.get_attr_handle
    by_cases h : hnd w.ptr n = 0
    · simp [h, base_from_ptr_opt_zero]
    · simp [h, (base_from_ptr_opt_null (hnd w.ptr n)).2 h]

/-- Witness for C9 at concrete inputs: pointer 3, a sibling oracle returning
null and a parent oracle returning 7. -/
theorem from_ptr_opt_none_iff_null_witness :
    (Wrapped.from_ptr_opt 3 = Except.ok (some ⟨3⟩)) ∧
    (Widget.get_sibling (fun _ => 0) ⟨3⟩ = Except.ok none) ∧
    ¬ (Widget.get_parent (fun _ => 7) ⟨3⟩ = Except.ok none) :=
  ⟨((from_ptr_opt_none_iff_null 3 (fun _ => 0) (fun _ => 7) (fun _ => 0)
      (fun _ _ => 0) ⟨3⟩ "x").2.1 (by decide)).2,
   (from_ptr_opt_none_iff_null 3 (fun _ => 0) (fun _ => 7) (fun _ => 0)
      (fun _ _ => 0) ⟨3⟩ "x").2.2.1.mpr rfl,
   fun h => by
     have := (from_ptr_opt_none_iff_null 3 (fun _ => 0) (fun _ => 7) (fun _ => 0)
        (fun _ _ => 0) ⟨3⟩ "x").2.2.2.1.mp h
     simp at this⟩

/-- C10: `get_size_pixels` converts each `i32` component to `u32` by a plain
two's-complement cast, so a negative reported component `n` comes back as
`n + 2^32` (equivalently `n` modulo `2^32`), a value of at least `2^31` —
neither an error nor zero. -/
theorem get_size_pixels_negative_wraps (width height : Int)
    (hw1 : -(2 ^ 31) ≤ width) (hw2 : width < 2 ^ 31)
    (hh1 : -(2 ^ 31) ≤ height) (hh2 : height < 2 ^ 31) :
    (((Widget.get_size_pixels (width, height)).1 : Int) = width % 2 ^ 32) ∧
    (((Widget.get_size_pixels (width, height)).2 : Int) = height % 2 ^ 32) ∧
    (width < 0 →
      ((Widget.get_size_pixels (width, height)).1 : Int) = width + 2 ^ 32 ∧
      2 ^ 31 ≤ (Widget.get_size_pixels (width, height)).1) ∧
    (height < 0 →
      ((Widget.get_size_pixels (width, height)).2 : Int) = height + 2 ^ 32 ∧
      2 ^ 31 ≤ (Widget.get_size_pixels (width, height)).2) := by
  unfold Widget.get_size_pixels
  have h1 : ((width % (2 ^ 32 : Int)).toNat : Int) = width % 2 ^ 32 :=
    Int.toNat_of_nonneg (Int.emod_nonneg width (by norm_num))
  have h2 : ((height % (2 ^ 32 : Int)).toNat : Int) = height % 2 ^ 32 :=
    Int.toNat_of_nonneg (Int.emod_nonneg height (by norm_num))
  refine ⟨h1, h2, ?_, ?_⟩
  · intro hneg
    constructor
    · rw [h1]; omega
    · have : (2 ^ 31 : Int) ≤ ((width % (2 ^ 32 : Int)).toNat : Int) := by
        rw [h1]; omega
      exact_mod_cast this
  · intro hneg
    constructor
    · rw [h2]; omega
    · have : (2 ^ 31 : Int) ≤ ((height % (2 ^ 32 : Int)).toNat : Int) := by
        rw [h2]; omega
      exact_mod_cast this

/-- Witness for C10 at the concrete in-range size (-1, -2147483648). -/
theorem get_size_pixels_negative_wraps_witness :
    ((Widget.get_size_pixels (-1, -2147483648)).1 : Int) = -1 + 2 ^ 32 ∧
    2 ^ 31 ≤ (Widget.get_size_pixels (-1, -2147483648)).2 :=
  ⟨((get_size_pixels_negative_wraps (-1) (-2147483648) (by norm_num) (by norm_num)
      (by norm_num) (by norm_num)).2.2.1 (by norm_num)).1,
   ((get_size_pixels_negative_wraps (-1) (-2147483648) (by norm_num) (by norm_num)
      (by norm_num) (by norm_num)).2.2.2 (by norm_num)).2⟩

/-- C7: `set_str_attribute` (and `set_opt_str_attribute` with a present
value) panics exactly when the text contains a NUL byte, and otherwise passes
the converted text to the native `IupSetStrAttribute` call. -/
theorem set_str_attribute_nul_is_fatal (w : Wrapped) (n : String)
    (val : List Nat) (s : KissState) :
    (val.contains 0 = true →
      IUPWidget.set_str_attribute w n val s =
        Except.error "called Result::unwrap on an Err value: NulError" ∧
      IUPWidget.set_opt_str_attribute w n (some val) s =
        Except.error "called Result::unwrap on an Err value: NulError") ∧
    (val.contains 0 = false →
      IUPWidget.set_str_attribute w n val s =
        Except.ok { s with calls :=
          s.calls ++ [Event.iupSetStrAttribute w.ptr n (some val)] } ∧
      IUPWidget.set_opt_str_attribute w n (some val) s =
        Except.ok { s with calls :=
          s.calls ++ [Event.iupSetStrAttribute w.ptr n (some val)] }) := by
  unfold IUPWidget.set_str_attribute IUPWidget.set_opt_str_attribute
    IUPWidget.cstring_new
  constructor
  · intro h
    have h' : 0 ∈ val := by simpa using h
    simp [h']
  · intro h
    have h' : 0 ∉ val := by simpa using h
    simp [h']

/-- Witness for C7 at the byte strings [72, 0, 105] (with a NUL) and
[72, 105] (without). -/
theorem set_str_attribute_nul_is_fatal_witness :
    IUPWidget.set_str_attribute ⟨1⟩ "TITLE" [72, 0, 105] ⟨false, [], []⟩ =
      Except.error "called Result::unwrap on an Err value: NulError" ∧
    IUPWidget.set_str_attribute ⟨1⟩ "TITLE" [72, 105] ⟨false, [], []⟩ =
      Except.ok ⟨false, [], [Event.iupSetStrAttribute 1 "TITLE" (some [72, 105])]⟩ :=
  ⟨((set_str_attribute_nul_is_fatal ⟨1⟩ "TITLE" [72, 0, 105] ⟨false, [], []⟩).1
      (by decide)).1,
   ((set_str_attribute_nul_is_fatal ⟨1⟩ "TITLE" [72, 105] ⟨false, [], []⟩).2
      (by decide)).1⟩

/-- C1 counterexample: with `KISS_RUNNING` false (the state outside the
lifecycle window), `Widget::show` on a concrete widget does not fail fast: it
returns normally and its one effect is the native `IupShow` call — the
operation reaches the native library instead of panicking. -/
theorem widget_op_unguarded_counterexample :
    kiss_running ⟨false, [], []⟩ = false ∧
    Widget.«show» ⟨1⟩ ⟨false, [], []⟩ = (⟨1⟩, ⟨false, [], [Event.iupShow 1]⟩) :=
  ⟨rfl, rfl⟩

/-- C1 (amended): the `assert_kiss_running!` macro panics exactly when the
lifecycle flag is false, so the operations that invoke it fail fast outside
the lifecycle window; but the `Widget` trait methods of widget.rs — `show`,
`hide`, `set_str_attribute`, `store` — do not invoke it: with the flag false
each still runs, and `show`, `hide` and `set_str_attribute` reach the native
library. -/
theorem assert_kiss_running_guards_only_its_call_sites (s : KissState)
    (w : Wrapped) (n : String) (val : List Nat) :
    (assert_kiss_running s = Except.ok () ↔ kiss_running s = true) ∧
    (kiss_running s = false →
      (Widget.«show» w s).2.calls = s.calls ++ [Event.iupShow w.ptr] ∧
      (Widget.hide w s).2.calls = s.calls ++ [Event.iupHide w.ptr] ∧
      (val.contains 0 = false →
        IUPWidget.set_str_attribute w n val s = Except.ok { s with calls :=
          s.calls ++ [Event.iupSetStrAttribute w.ptr n (some val)] }) ∧
      (w.ptr ≠ 0 → ∃ r, Widget.store w n s = Except.ok r)) := by
  constructor
  · unfold assert_kiss_running
    by_cases h : kiss_running s <;> simp [h]
  · intro hrun
    refine ⟨rfl, rfl, ?_, ?_⟩
    · intro hval
      unfold IUPWidget.set_str_attribute IUPWidget.cstring_new
      have hval' : 0 ∉ val := by simpa using hval
      simp [hval']
    · intro hw
      unfold Widget.store Widget.to_base BaseWidget.from_ptr
      simp [hw]

/-- Witness for the amended C1 at a concrete widget and state. -/
theorem assert_kiss_running_guards_only_its_call_sites_witness :
    (assert_kiss_running ⟨true, [], []⟩ = Except.ok () ↔
      kiss_running ⟨true, [], []⟩ = true) ∧
    (Widget.hide ⟨2⟩ ⟨false, [], []⟩).2.calls = [] ++ [Event.iupHide 2] :=
  ⟨(assert_kiss_running_guards_only_its_call_sites ⟨true, [], []⟩ ⟨2⟩ "N" []).1,
   ((assert_kiss_running_guards_only_its_call_sites ⟨false, [], []⟩ ⟨2⟩ "N" []).2
      rfl).2.1⟩

/-- C2: storing a widget under a name and then retrieving it by that name in
the same lifecycle window returns Some handle whose underlying pointer equals
the stored widget's pointer, including across an intervening store under a
different name. -/
theorem store_then_load_same_ptr (w : Wrapped) (n : String) (s : KissState)
    (hw : w.ptr ≠ 0) (hrun : s.kiss_running = true) :
    ∃ old s1, Widget.store w n s = Except.ok (old, s1) ∧
      BaseWidget.load n s1 = Except.ok (some ⟨w.ptr⟩) ∧
      (∀ (w2 : Wrapped) (m : String), m ≠ n → w2.ptr ≠ 0 →
        ∃ old2 s2, Widget.store w2 m s1 = Except.ok (old2, s2) ∧
          BaseWidget.load n s2 = Except.ok (some ⟨w.ptr⟩)) := by
  refine ⟨s.widget_store.lookup n,
    { s with widget_store :=
        (n, ⟨w.ptr⟩) :: s.widget_store.filter (fun p => p.1 ≠ n) }, ?_, ?_, ?_⟩
  · unfold Widget.store Widget.to_base BaseWidget.from_ptr
    simp [hw]
  · unfold BaseWidget.load assert_kiss_running kiss_running
    simp [hrun, List.lookup]
  · intro w2 m hm hw2
    set t : List (String × BaseWidget) :=
      (n, ⟨w.ptr⟩) :: s.widget_store.filter (fun p => p.1 ≠ n) with ht
    refine ⟨t.lookup m,
      { s with widget_store := (m, ⟨w2.ptr⟩) :: t.filter (fun p => p.1 ≠ m) },
      ?_, ?_⟩
    · unfold Widget.store Widget.to_base BaseWidget.from_ptr
      simp [hw2]
    · unfold BaseWidget.load assert_kiss_running kiss_running
      have hmn : (m == n) = false := by
        simp [hm]
      have hnm : (n == m) = false := by
        simp
        exact fun e => hm e.symm
      simp [hrun, List.lookup, hmn, hnm, ht, List.filter, hm.symm]

/-- Witness for C2 at a concrete widget, name and state. -/
theorem store_then_load_same_ptr_witness :
    ∃ old s1, Widget.store ⟨4⟩ "main" ⟨true, [], []⟩ = Except.ok (old, s1) ∧
      BaseWidget.load "main" s1 = Except.ok (some ⟨4⟩) ∧
      (∀ (w2 : Wrapped) (m : String), m ≠ "main" → w2.ptr ≠ 0 →
        ∃ old2 s2, Widget.store w2 m s1 = Except.ok (old2, s2) ∧
          BaseWidget.load "main" s2 = Except.ok (some ⟨4⟩)) :=
  store_then_load_same_ptr ⟨4⟩ "main" ⟨true, [], []⟩ (by decide) rfl

/-- C3: storing a second widget under a name already in use returns the
previously stored widget and afterwards the store maps the name to the new
widget's handle. -/
theorem store_returns_previous_and_replaces (w2 : Wrapped) (n : String)
    (s : KissState) (b1 : BaseWidget)
    (hmap : s.widget_store.lookup n = some b1) (hw2 : w2.ptr ≠ 0) :
    ∃ s2, Widget.store w2 n s = Except.ok (some b1, s2) ∧
      s2.widget_store.lookup n = some ⟨w2.ptr⟩ := by
  refine ⟨{ s with widget_store :=
      (n, ⟨w2.ptr⟩) :: s.widget_store.filter (fun p => p.1 ≠ n) }, ?_, ?_⟩
  · unfold Widget.store Widget.to_base BaseWidget.from_ptr
    simp [hw2, hmap]
  · simp [List.lookup]

/-- Witness for C3: name "main" is first bound to the widget with pointer 4,
then a widget with pointer 9 is stored under the same name. -/
theorem store_returns_previous_and_replaces_witness :
    ∃ s2, Widget.store ⟨9⟩ "main" ⟨true, [("main", ⟨4⟩)], []⟩ =
        Except.ok (some ⟨4⟩, s2) ∧
      s2.widget_store.lookup "main" = some ⟨9⟩ :=
  store_returns_previous_and_replaces ⟨9⟩ "main" ⟨true, [("main", ⟨4⟩)], []⟩ ⟨4⟩
    (by simp [List.lookup]) (by decide)

/-- C4: whenever show_gui returns, the widget store of the resulting state is
empty — for every client closure, every main-loop behavior, every IupOpen
outcome and every starting state. -/
theorem show_gui_clears_widget_store (openFails : Bool)
    (init_fn : KissState → Dialog × KissState) (mainLoop : KissState → KissState)
    (s0 s1 : KissState)
    (h : show_gui openFails init_fn mainLoop s0 = Except.ok s1) :
    s1.widget_store = [] := by
  unfold show_gui at h
  by_cases ho : openFails
  · rw [if_pos ho] at h
    exact absurd h (by simp)
  · rw [if_neg ho] at h
    simp only [Except.ok.injEq] at h
    subst h
    rfl

/-- Witness for C4 with a concrete closure and start state holding one stored
widget. -/
theorem show_gui_clears_widget_store_witness :
    (⟨false, [], [Event.iupOpen, Event.iupSetGlobal, Event.setRunning true,
        Event.iupShow 5, Event.iupMainLoop, Event.iupClose,
        Event.setRunning false, Event.clearStore]⟩ : KissState).widget_store =
      [] :=
  show_gui_clears_widget_store false (fun s => (⟨5⟩, s)) id
    ⟨false, [("main", ⟨4⟩)], []⟩ _ rfl

lemma flagStep_of_not_set (b : Bool) (e : Event)
    (h : ∀ b2 : Bool, e ≠ Event.setRunning b2) : flagStep b e = b := by
  cases e <;> first | rfl | exact absurd rfl (h _)

lemma noSetRunning_cons {e : Event} {l : List Event}
    (h : noSetRunning (e :: l)) :
    (∀ b2 : Bool, e ≠ Event.setRunning b2) ∧ noSetRunning l := by
  constructor
  · intro b2 he
    apply h b2
    rw [← he]
    exact List.mem_cons_self e l
  · intro b2 hb
    exact h b2 (List.mem_cons_of_mem e hb)

lemma runFlagFrom_cons (b : Bool) (e : Event) (l : List Event) :
    runFlagFrom b (e :: l) = runFlagFrom (flagStep b e) l := rfl

lemma runFlagFrom_of_noSetRunning :
    ∀ (l : List Event) (b : Bool), noSetRunning l → runFlagFrom b l = b := by
  intro l
  induction l with
  | nil => intro b _; rfl
  | cons e tl ih =>
      intro b h
      obtain ⟨he, htl⟩ := noSetRunning_cons h
      rw [runFlagFrom_cons, flagStep_of_not_set b e he]
      exact ih b htl

lemma window_after_true :
    ∀ (M : List Event), noSetRunning M → ∀ (C : List Event), noSetRunning C →
      ∀ (p q : List Event), M ++ Event.setRunning false :: C = p ++ q →
        (runFlagFrom true p = true ↔ Event.setRunning false ∉ p) := by
  intro M
  induction M with
  | nil =>
      intro _ C hC p q h
      cases p with
      | nil => simp [runFlagFrom]
      | cons e p' =>
          rw [List.nil_append, List.cons_append] at h
          injection h with h1 h2
          subst h1
          rw [runFlagFrom_cons]
          have hp' : noSetRunning p' := by
            intro b2 hb
            exact hC b2 (h2 ▸ List.mem_append_left q hb)
          rw [show flagStep true (Event.setRunning false) = false from rfl,
            runFlagFrom_of_noSetRunning p' false hp']
          simp
  | cons a M' ih =>
      intro hM C hC p q h
      obtain ⟨ha, hM'⟩ := noSetRunning_cons hM
      cases p with
      | nil => simp [runFlagFrom]
      | cons e p' =>
          rw [List.cons_append, List.cons_append] at h
          injection h with h1 h2
          subst h1
          rw [runFlagFrom_cons, flagStep_of_not_set true a ha]
          rw [ih hM' C hC p' q h2]
          have haf : Event.setRunning false ≠ a := fun hh => (ha false) hh.symm
          simp [List.mem_cons, haf]

lemma flag_window :
    ∀ (A : List Event), noSetRunning A → ∀ (M : List Event), noSetRunning M →
      ∀ (C : List Event), noSetRunning C →
      ∀ (p q : List Event),
        A ++ Event.setRunning true :: (M ++ Event.setRunning false :: C) = p ++ q →
        (runFlag p = true ↔
          (Event.setRunning true ∈ p ∧ Event.setRunning false ∉ p)) := by
  intro A
  induction A with
  | nil =>
      intro _ M hM C hC p q h
      cases p with
      | nil => simp [runFlag, runFlagFrom]
      | cons e p' =>
          rw [List.nil_append, List.cons_append] at h
          injection h with h1 h2
          subst h1
          rw [runFlag, runFlagFrom_cons,
            show flagStep false (Event.setRunning true) = true from rfl]
          rw [window_after_true M hM C hC p' q h2]
          simp [List.mem_cons]
  | cons a A' ih =>
      intro hA M hM C hC p q h
      obtain ⟨ha, hA'⟩ := noSetRunning_cons hA
      cases p with
      | nil => simp [runFlag, runFlagFrom]
      | cons e p' =>
          rw [List.cons_append, List.cons_append] at h
          injection h with h1 h2
          subst h1
          rw [runFlag, runFlagFrom_cons, flagStep_of_not_set false a ha]
          have hmain := ih hA' M hM C hC p' q h2
          rw [runFlag] at hmain
          rw [hmain]
          have hat : Event.setRunning true ≠ a := fun hh => (ha true) hh.symm
          have haf : Event.setRunning false ≠ a := fun hh => (ha false) hh.symm
          simp [List.mem_cons, hat, haf]

lemma count_window (A M C : List Event) (hA : noSetRunning A)
    (hM : noSetRunning M) (hC : noSetRunning C) :
    (A ++ Event.setRunning true :: (M ++ Event.setRunning false :: C)).count
        (Event.setRunning true) = 1 ∧
    (A ++ Event.setRunning true :: (M ++ Event.setRunning false :: C)).count
        (Event.setRunning false) = 1 := by
  have cA : ∀ b : Bool, A.count (Event.setRunning b) = 0 :=
    fun b => List.count_eq_zero.mpr (hA b)
  have cM : ∀ b : Bool, M.count (Event.setRunning b) = 0 :=
    fun b => List.count_eq_zero.mpr (hM b)
  have cC : ∀ b : Bool, C.count (Event.setRunning b) = 0 :=
    fun b => List.count_eq_zero.mpr (hC b)
  constructor <;>
    simp [List.count_append, List.count_cons, cA true, cA false, cM true,
      cM false, cC true, cC false]

/-- C8: during a single call to show_gui whose client code (the init closure
and the main-loop callbacks) only appends events that never touch the private
lifecycle flag, the trace records exactly one set of the flag to true —
immediately after the native init calls and before any client event — and
exactly one clear to false — after the event loop and IupClose return; and
replaying any prefix of the trace, the flag reads true exactly strictly
inside that window (so it is false at every point outside it).  The final
state's flag is false. -/
theorem show_gui_sets_and_clears_flag_once
    (init_fn : KissState → Dialog × KissState) (mainLoop : KissState → KissState)
    (s0 : KissState) (hi : InitAppends init_fn) (hl : ClientAppends mainLoop)
    (hs0 : s0.calls = []) (s1 : KissState)
    (h : show_gui false init_fn mainLoop s0 = Except.ok s1) :
    s1.kiss_running = false ∧
    s1.calls.count (Event.setRunning true) = 1 ∧
    s1.calls.count (Event.setRunning false) = 1 ∧
    (∀ p q : List Event, s1.calls = p ++ q →
      (runFlag p = true ↔
        (Event.setRunning true ∈ p ∧ Event.setRunning false ∉ p))) := by
  unfold show_gui at h
  rw [if_neg (by decide)] at h
  simp only [Except.ok.injEq] at h
  generalize hS2 :
      ({ s0 with
          kiss_running := true,
          calls := s0.calls ++ [Event.iupOpen, Event.iupSetGlobal] ++ [Event.setRunning true] } :
        KissState) = S2 at h
  generalize hD : init_fn S2 = D at h
  obtain ⟨ev1, hev1, hno1⟩ := hi S2
  rw [hD] at hev1
  generalize hS4 :
      ({ D.2 with
          calls := D.2.calls ++ [Event.iupShow D.1.ptr] } :
        KissState) = S4 at h
  generalize hM5 : mainLoop S4 = M5 at h
  obtain ⟨ev2, hev2, hno2⟩ := hl S4
  rw [hM5] at hev2
  have hS2c : S2.calls =
      s0.calls ++ [Event.iupOpen, Event.iupSetGlobal] ++ [Event.setRunning true] := by
    rw [← hS2]
  have hS4c : S4.calls = D.2.calls ++ [Event.iupShow D.1.ptr] := by
    rw [← hS4]
  have hrun : s1.kiss_running = false := by
    rw [← h]
  have hc : s1.calls =
      [Event.iupOpen, Event.iupSetGlobal] ++ Event.setRunning true ::
        ((ev1 ++ [Event.iupShow D.1.ptr] ++ ev2
          ++ [Event.iupMainLoop, Event.iupClose])
          ++ Event.setRunning false :: [Event.clearStore]) := by
    rw [← h]
    show M5.calls ++ [Event.iupMainLoop, Event.iupClose]
        ++ [Event.setRunning false] ++ [Event.clearStore] = _
    rw [hev2, hS4c, hev1, hS2c, hs0]
    simp [List.append_assoc]
  have hMno : noSetRunning (ev1 ++ [Event.iupShow D.1.ptr] ++ ev2
      ++ [Event.iupMainLoop, Event.iupClose]) := by
    intro b hb
    simp only [List.mem_append, List.mem_cons, List.mem_singleton,
      List.not_mem_nil, or_false] at hb
    rcases hb with ((hb | hb) | hb) | hb
    · exact hno1 b hb
    · cases hb
    · exact hno2 b hb
    · rcases hb with hb | hb
      · cases hb
      · cases hb
  refine ⟨hrun, ?_, ?_, ?_⟩
  · rw [hc]
    exact (count_window _ _ _ (by decide) hMno (by decide)).1
  · rw [hc]
    exact (count_window _ _ _ (by decide) hMno (by decide)).2
  · intro p q hpq
    rw [hc] at hpq
    exact flag_window _ (by decide) _ hMno _ (by decide) p q hpq

/-- Witness for C8 with a concrete init closure (producing the dialog with
pointer 5 and one client event) and an identity main loop. -/
theorem show_gui_sets_and_clears_flag_once_witness :
    ([Event.iupOpen, Event.iupSetGlobal, Event.setRunning true, Event.client 0,
        Event.iupShow 5, Event.iupMainLoop, Event.iupClose,
        Event.setRunning false, Event.clearStore] : List Event).count
      (Event.setRunning true) = 1 :=
  (show_gui_sets_and_clears_flag_once
    (fun s => (⟨5⟩, { s with calls := s.calls ++ [Event.client 0] })) id
    ⟨false, [], []⟩
    (fun s => ⟨[Event.client 0], rfl, by decide⟩)
    (fun s => ⟨[], by simp, by decide⟩)
    rfl _ rfl).2.1
